import Mathlib

/-!
Verification of the decorator-combinator module `src/decorator/decorator.py`
(`decorated`, `pipe`, `compose`, `optional`, `optional2`) against its
specification.  Python callables are modelled as their observables: the
introspectable identity metadata (`__name__`, `__doc__`) together with the
call behaviour; `functools.partial(f, x)` is modelled extensionally, as the
function a later call runs; the `__undefined` sentinel (and `decorated`'s
`g=None` default) as `Option.none`; a raised exception as `Option.none` or
`Except.error`.  Where a claim needs Python's `callable` test, or needs
callables and plain data to share one type, a small untyped value universe
`Val` is used.
-/

namespace Decorator

/-- A Python callable of the modelled fragment: its introspectable identity
metadata (`__name__`, `__doc__`) together with its call behaviour, one
argument tuple in, one result out.  Two callables of the model are equal
exactly when they agree on these observables. -/
structure PyFun (α β : Type) where
  name : String
  doc : String
  call : α → β

/-- `functools.update_wrapper(wrapper, wrapped)` restricted to the metadata
the claims mention: the result is `wrapper` with `__name__` and `__doc__`
copied over from `wrapped`. -/
def update_wrapper (wrapper : PyFun α β) (wrapped : PyFun γ δ) : PyFun α β :=
  { wrapper with name := wrapped.name, doc := wrapped.doc }

/-- `update_wrapper(partial(f, g), g)` from line 44 of the source: `f`
partially applied to the target `g` — a later call with arguments `b`
computes `f(g, b)` — carrying the target's metadata. -/
def decoratedWrapper (f : PyFun (PyFun A R × B) S) (t : PyFun A R) :
    PyFun B S :=
  update_wrapper { name := f.name, doc := f.doc, call := fun b => f.call (t, b) } t

/-- `decorated(f, g=None)`, src/decorator/decorator.py lines 16-44.  The
wrapper definition `f` receives the decorated target as its first argument
and the later call arguments as the rest (here: the pair of both).  With
`g = none` (Python `g is None`) the source returns
`update_wrapper(partial(decorated, f), f)`: a still-pending decorator, which
the model represents by `f` itself under `update_wrapper` — it carries `f`'s
metadata, and calling it on `g` computes exactly `decorated(f, g)` (see
`applyDecorator`).  With a target `g` the source returns
`update_wrapper(partial(f, g), g)`, i.e. `decoratedWrapper f g`. -/
def decorated (f : PyFun (PyFun A R × B) S) (g : Option (PyFun A R)) :
    PyFun (PyFun A R × B) S ⊕ PyFun B S :=
  match g with
  | none => Sum.inl (update_wrapper f f)
  | some t => Sum.inr (decoratedWrapper f t)

/-- Calling a value returned by `decorated` on one optional positional
argument.  The pending `partial(decorated, f)` called on `g` computes
`decorated(f, g)`; a wrapped callable is not decorator-shaped, so it is left
untouched (no claim calls one this way). -/
def applyDecorator (p : PyFun (PyFun A R × B) S ⊕ PyFun B S)
    (g : Option (PyFun A R)) : PyFun (PyFun A R × B) S ⊕ PyFun B S :=
  match p with
  | Sum.inl f => decorated f g
  | Sum.inr w => Sum.inr w

/-- The lambda inside `pipe`, lines 54-55: given the decorated target `fn`
and the call arguments, evaluate `fn(*args, **kwargs)` (which may raise:
`none`), then fold `reduce(lambda f, g: g(f), decorators, ...)` over the
result — each decorator applied to the accumulated value, left to right, a
raise short-circuiting. -/
def pipeLambda (decorators : List (ρ → Option ρ)) :
    PyFun (PyFun A (Option ρ) × A) (Option ρ) :=
  { name := "<lambda>", doc := "",
    call := fun fa =>
      (fa.1.call fa.2).bind fun r => List.foldlM (fun f g => g f) r decorators }

/-- `pipe(*decorators)`, lines 47-56: `decorated` applied to the lambda,
no target bound yet. -/
def pipe (decorators : List (ρ → Option ρ)) :
    PyFun (PyFun A (Option ρ) × A) (Option ρ) ⊕ PyFun A (Option ρ) :=
  decorated (pipeLambda decorators) none

/-- `compose(*decorators)`, lines 59-66: `pipe` of the reversed tuple. -/
def compose (decorators : List (ρ → Option ρ)) :
    PyFun (PyFun A (Option ρ) × A) (Option ρ) ⊕ PyFun A (Option ρ) :=
  pipe decorators.reverse

/-- A small universe of untyped Python values, for the claims that need the
builtin `callable` test or need callables and plain data in one type: a
value is non-callable data, or a callable taking one `Nat` argument and
returning a value or raising (`none`). -/
inductive Val where
  | data : Nat → Val
  | func : (Nat → Option Val) → Val

/-- The builtin `callable` on the value universe, as line 221 of the source
uses it. -/
def callable : Val → Bool
  | Val.data _ => false
  | Val.func _ => true

/-- Calling a value on one argument: data is not callable (a `TypeError`,
i.e. `none`), a function runs its body. -/
def callVal : Val → Nat → Option Val
  | Val.data _, _ => none
  | Val.func h, n => h n

/-- A value viewed as a callable object carrying the metadata Python
attribute lookup would find on it (the exact strings are immaterial to every
claim below). -/
def Val.asFun (v : Val) : PyFun Nat (Option Val) :=
  { name := match v with | Val.data _ => "int" | Val.func _ => "<lambda>",
    doc := "", call := callVal v }

/-- The object `pipe(ds)` used itself as an element of another `pipe`'s
decorator tuple: it is `partial(decorated, L)`, so applying it to one
positional argument `x` gives `decorated(L, x) = update_wrapper(partial(L, x), x)`
— a callable value whose body is `L(x, ...)`. -/
def pipeAsElement (ds : List (Val → Option Val)) (x : Val) : Option Val :=
  match applyDecorator (pipe ds) (some x.asFun) with
  | Sum.inr w => some (Val.func w.call)
  | Sum.inl _ => none

/-- What a bare-or-factory adapter returns: either the factory's wrapper,
still pending a target, or that wrapper already applied to the target. -/
inductive OptResult (W ω : Type) where
  | pendingW : W → OptResult W ω
  | applied : ω → OptResult W ω

/-- The function body that `@decorated` turns into `optional`, lines 69-122:
`f(**kwargs) if g is __undefined else f(**kwargs)(g)`.  `g = none` models
the `__undefined` sentinel. -/
def optionalDef {K τ ω : Type} :
    PyFun (PyFun K (τ → ω) × (Option τ × K)) (OptResult (τ → ω) ω) :=
  { name := "optional", doc := "optional", call := fun x =>
      match x with
      | (f, none, kwargs) => OptResult.pendingW (f.call kwargs)
      | (f, some g, kwargs) => OptResult.applied (f.call kwargs g) }

/-- `optional` as the module defines it: `decorated` applied to the body,
still pending its factory argument. -/
def optional {K τ ω : Type} := decorated (@optionalDef K τ ω) none

/-- Raised Python errors relevant to the claims, carried by `Except`. -/
inductive PyErr where
  | typeError : String → PyErr

/-- The function body that `@decorated` turns into `optional2`, lines
125-224: `f(*args, **kwargs)` when `g` is the `__undefined` sentinel
(`none`); `f(*args, **kwargs)(g)` when `g` is supplied and `callable(g)`;
`f(g, *args, **kwargs)` otherwise.  The factory may raise (`Except.error`),
and a raise inside the factory call propagates out of every branch. -/
def optional2Def {K : Type} :
    PyFun (PyFun (List Val × K) (Except PyErr (Val → Val))
             × (Option Val × List Val × K))
          (Except PyErr (OptResult (Val → Val) Val)) :=
  { name := "optional2", doc := "optional2", call := fun x =>
      match x with
      | (f, none, args, kwargs) =>
          (f.call (args, kwargs)).map OptResult.pendingW
      | (f, some g, args, kwargs) =>
          if callable g then
            (f.call (args, kwargs)).map fun w => OptResult.applied (w g)
          else
            (f.call (g :: args, kwargs)).map OptResult.pendingW }

/-- `optional2` as the module defines it: `decorated` applied to the body,
still pending its factory argument. -/
def optional2 {K : Type} := decorated (@optional2Def K) none

/-- Whether `decorated` produced a wrapped callable (rather than the
still-pending decorator). -/
def isWrapped (p : PyFun (PyFun A R × B) S ⊕ PyFun B S) : Bool :=
  match p with
  | Sum.inl _ => false
  | Sum.inr _ => true

/-- Increment a data value by one; any other value unchanged. -/
def valIncr : Val → Val
  | Val.data n => Val.data (n + 1)
  | v => v

/-- A genuine decorator for the `pipe` demonstration: a callable `h` is
wrapped into `fun a => h(a) + 1`; a plain data value `n` is mapped to
`n * 100`, so the two routes are told apart. -/
def wDemo : Val → Option Val
  | Val.data n => some (Val.data (n * 100))
  | Val.func h => some (Val.func fun a => (h a).map valIncr)

/-- The demonstration target: `fun n => n`, returning its argument as data. -/
def tDemo : PyFun Nat (Option Val) :=
  { name := "t", doc := "demo target", call := fun n => some (Val.data n) }

/-- An identity-on-callables decorator that adds one to data, for the
associativity demonstration. -/
def dDemo : Val → Option Val
  | Val.data n => some (Val.data (n + 1))
  | Val.func h => some (Val.func h)

/-- A probe wrapper definition that reveals which object is bound as its
first argument, by returning that object's `__name__`. -/
def fProbe : PyFun (PyFun Unit Unit × Unit) String :=
  { name := "f", doc := "", call := fun x => x.1.name }

/-- A probe target with a recognisable name. -/
def tProbe : PyFun Unit Unit :=
  { name := "mytarget", doc := "", call := fun _ => () }

/-- A concrete factory for witnesses: it returns a wrapper that records how
many positional configuration values the factory received. -/
def gDemoFactory : PyFun (List Val × Unit) (Except PyErr (Val → Val)) :=
  { name := "G", doc := "", call := fun x =>
      Except.ok fun _ => Val.data x.1.length }

/-- The docstring factory `foo(bar, baz=...)`: its first configuration
parameter has no default, so calling it with no positional values raises a
missing-required-argument `TypeError`. -/
def gRequired : PyFun (List Val × Unit) (Except PyErr (Val → Val)) :=
  { name := "foo", doc := "", call := fun x =>
      match x.1 with
      | [] => Except.error (PyErr.typeError
          "foo missing 1 required positional argument: bar")
      | a :: _ => Except.ok fun _ => a }

/-- Claim C1, evaluation of the code at the failing input.  `pipe((w,))`
applied to the target `t = fun n => n` and the wrapped result called at `3`
computes `w(t(3)) = w(3) = 300`: the `reduce` on line 55 starts from
`fn(*args, **kwargs)`, so each decorator is applied to the target's call
result, at every call.  Had `w` been applied to the target itself, as the
claim (and `pipe`'s own docstring) states, the composed wrapper would be
`w(t) = fun a => t(a) + 1` and the call at `3` would return `4`, not `300`:
the third conjunct evaluates `w` on the target, the fourth records that the
two outcomes differ. -/
theorem pipe_applies_decorator_to_call_result :
    applyDecorator (pipe [wDemo]) (some tDemo)
        = Sum.inr (decoratedWrapper (pipeLambda [wDemo]) tDemo)
      ∧ (decoratedWrapper (pipeLambda [wDemo]) tDemo).call 3
        = some (Val.data 300)
      ∧ wDemo (Val.func tDemo.call)
        = some (Val.func fun a => some (Val.data (a + 1)))
      ∧ ((300 : Nat) == 4) = false :=
  ⟨rfl, rfl, rfl, rfl⟩

/-- Claim C2: the three-way dispatch of an `optional2`-adapted factory on
its first argument.  With the sentinel (`none`) the factory is called on the
given configuration and its still-pending wrapper is returned unapplied;
with a supplied invokable `g` the factory is called on the given
configuration and the resulting wrapper is applied to `g`; with a supplied
non-invokable `g` the factory is called with `g` prepended to the other
positional configuration and the still-pending wrapper is returned. -/
theorem optional2_three_way_dispatch {K : Type}
    (f : PyFun (List Val × K) (Except PyErr (Val → Val)))
    (args : List Val) (kwargs : K) :
    applyDecorator optional2 (some f)
        = Sum.inr (decoratedWrapper optional2Def f)
      ∧ (decoratedWrapper optional2Def f).call (none, args, kwargs)
          = (f.call (args, kwargs)).map OptResult.pendingW
      ∧ (∀ g : Val, callable g = true →
          (decoratedWrapper optional2Def f).call (some g, args, kwargs)
            = (f.call (args, kwargs)).map fun w => OptResult.applied (w g))
      ∧ (∀ g : Val, callable g = false →
          (decoratedWrapper optional2Def f).call (some g, args, kwargs)
            = (f.call (g :: args, kwargs)).map OptResult.pendingW) := by
  refine ⟨rfl, rfl, fun g hg => ?_, fun g hg => ?_⟩
  · cases g with
    | data n => simp [callable] at hg
    | func h => rfl
  · cases g with
    | data n => rfl
    | func h => simp [callable] at hg

/-- Witness for claim C2 at concrete inputs: an invokable argument is
dispatched to the target branch, a plain data argument to the
leading-configuration branch. -/
theorem optional2_three_way_dispatch_witness :
    callable (Val.func fun n => some (Val.data n)) = true
      ∧ (decoratedWrapper optional2Def gDemoFactory).call
            (some (Val.func fun n => some (Val.data n)), [], ())
          = Except.ok (OptResult.applied (Val.data 0))
      ∧ callable (Val.data 9) = false
      ∧ (decoratedWrapper optional2Def gDemoFactory).call
            (some (Val.data 9), [], ())
          = Except.ok (OptResult.pendingW fun _ => Val.data 1) :=
  ⟨rfl,
    (optional2_three_way_dispatch gDemoFactory [] ()).2.2.1 _ rfl,
    rfl,
    (optional2_three_way_dispatch gDemoFactory [] ()).2.2.2 _ rfl⟩

/-- Claim C3, counterexample to the claim as stated.  Were
`decorated(f)(target)` equal to `f(decorated(f), target)`, the object bound
as `f`'s first argument would be the pending decorator `decorated(f)`, whose
name is `f`'s own name `"f"` (third conjunct).  The code instead binds the
target as `f`'s first argument: the probe observes `"mytarget"`, and the two
names differ. -/
theorem decorated_self_binding_refuted :
    decorated fProbe (some tProbe) = Sum.inr (decoratedWrapper fProbe tProbe)
      ∧ (decoratedWrapper fProbe tProbe).call () = "mytarget"
      ∧ (update_wrapper fProbe fProbe).name = "f"
      ∧ ("mytarget" == "f") = false :=
  ⟨rfl, rfl, rfl, by decide⟩

/-- Claim C3 as amended: `decorated(f)(target)` is `f` partially applied to
the target — the target, not `decorated(f)`, is bound as `f`'s first
argument, and a later call with arguments `b` computes `f(target, b)` —
carrying the target's metadata; and `decorated(f)` with no target bound is
the still-pending decorator, itself usable as a unary decorator on a
target. -/
theorem decorated_binds_target_first {A R B S : Type}
    (f : PyFun (PyFun A R × B) S) (t : PyFun A R) (b : B) :
    decorated f (some t) = Sum.inr (decoratedWrapper f t)
      ∧ (decoratedWrapper f t).call b = f.call (t, b)
      ∧ (decoratedWrapper f t).name = t.name
      ∧ decorated f none = Sum.inl (update_wrapper f f)
      ∧ applyDecorator (decorated f none) (some t) = decorated f (some t) :=
  ⟨rfl, rfl, rfl, rfl, rfl⟩

/-- Claim C4: zero-argument composition is the identity wrapper.  Applying
`pipe()` (and `compose()`) to any target gives back a wrapped callable equal
to the target in every observable of the model: same name, same doc, same
call behaviour. -/
theorem pipe_compose_empty_identity {A ρ : Type} (t : PyFun A (Option ρ)) :
    applyDecorator (pipe ([] : List (ρ → Option ρ))) (some t) = Sum.inr t
      ∧ applyDecorator (compose ([] : List (ρ → Option ρ))) (some t)
        = Sum.inr t := by
  have h : decoratedWrapper (pipeLambda ([] : List (ρ → Option ρ))) t = t := by
    cases t with
    | mk n d c =>
      show PyFun.mk n d
          (fun a => (c a).bind fun r =>
            List.foldlM (fun f g => g f) r ([] : List (ρ → Option ρ)))
        = PyFun.mk n d c
      congr 1
      funext a
      cases c a <;> rfl
  exact ⟨congrArg Sum.inr h, congrArg Sum.inr h⟩

/-- Claim C5, evaluation of the code at the failing input.  With the
decorator `d` (identity on callables, adds one to data) three times over the
target `fun n => n`: the flat `pipe(d, d, d)` called at `3` returns the data
value `6`, but `pipe(d, pipe(d, d))` called at `3` returns a callable — the
inner pipe's pending `partial` applied to the data value `4` — because the
`reduce` on line 55 folds the decorators over the target's call result, so
the inner `pipe(d, d)` object receives a data value where it expects a
target.  Nesting `pipe` is therefore not equivalent to the flat form. -/
theorem pipe_nesting_not_associative :
    (decoratedWrapper (pipeLambda [dDemo, dDemo, dDemo]) tDemo).call 3
        = some (Val.data 6)
      ∧ applyDecorator (pipe [dDemo, dDemo, dDemo]) (some tDemo)
        = Sum.inr (decoratedWrapper (pipeLambda [dDemo, dDemo, dDemo]) tDemo)
      ∧ (decoratedWrapper
            (pipeLambda [dDemo, pipeAsElement [dDemo, dDemo]]) tDemo).call 3
        = some (Val.func fun _ => none)
      ∧ applyDecorator (pipe [dDemo, pipeAsElement [dDemo, dDemo]]) (some tDemo)
        = Sum.inr (decoratedWrapper
            (pipeLambda [dDemo, pipeAsElement [dDemo, dDemo]]) tDemo) :=
  ⟨rfl, rfl, rfl, rfl⟩

/-- Claim C6: for an `optional`-adapted factory, bare application to a
target behaves identically to a configuring call followed by applying the
returned wrapper to the same target.  The configuring call `(none, kwargs)`
returns the still-pending wrapper `F(**kwargs)`, and the bare call
`(some t, kwargs)` returns exactly that wrapper applied to `t` — the
adapter changes only the call shape. -/
theorem optional_bare_equals_configured {K τ ω : Type}
    (F : PyFun K (τ → ω)) (kwargs : K) (t : τ) :
    applyDecorator optional (some F) = Sum.inr (decoratedWrapper optionalDef F)
      ∧ (decoratedWrapper optionalDef F).call (none, kwargs)
          = OptResult.pendingW (F.call kwargs)
      ∧ (decoratedWrapper optionalDef F).call (some t, kwargs)
          = OptResult.applied (F.call kwargs t) :=
  ⟨rfl, rfl, rfl⟩

/-- Claim C7: whenever the single supplied argument is invokable — also when
it was intended as a configuration value — the `optional2`-adapted factory
takes the target branch: the factory is called on the remaining
configuration and its wrapper is applied to that argument.  The dispatch
looks only at `callable`, with no special-casing. -/
theorem optional2_invokable_always_target {K : Type}
    (f : PyFun (List Val × K) (Except PyErr (Val → Val)))
    (args : List Val) (kwargs : K) (v : Val) (hv : callable v = true) :
    (decoratedWrapper optional2Def f).call (some v, args, kwargs)
      = (f.call (args, kwargs)).map fun w => OptResult.applied (w v) := by
  cases v with
  | data n => simp [callable] at hv
  | func h => rfl

/-- Witness for claim C7: a callable value intended as a configuration value
is nonetheless routed to the target branch — the factory is called with no
positional configuration and its wrapper is applied to the value. -/
theorem optional2_invokable_always_target_witness :
    callable (Val.func fun _ => some (Val.data 99)) = true
      ∧ (decoratedWrapper optional2Def gDemoFactory).call
            (some (Val.func fun _ => some (Val.data 99)), [], ())
          = Except.ok (OptResult.applied (Val.data 0)) :=
  ⟨rfl, optional2_invokable_always_target gDemoFactory [] () _ rfl⟩

/-- Claim C8: in configuring mode (sentinel received), an error raised by
the underlying factory call is propagated to the caller unchanged — the
adapter neither catches nor translates it. -/
theorem optional2_missing_argument_propagates {K : Type}
    (f : PyFun (List Val × K) (Except PyErr (Val → Val)))
    (args : List Val) (kwargs : K) (e : PyErr)
    (he : f.call (args, kwargs) = Except.error e) :
    applyDecorator optional2 (some f) = Sum.inr (decoratedWrapper optional2Def f)
      ∧ (decoratedWrapper optional2Def f).call (none, args, kwargs)
        = Except.error e := by
  refine ⟨rfl, ?_⟩
  show (f.call (args, kwargs)).map OptResult.pendingW = Except.error e
  rw [he]
  rfl

/-- Witness for claim C8: the docstring factory `foo(bar, baz=...)`, whose
first configuration parameter has no default, called through the adapter in
configuring mode with zero arguments, surfaces the factory's own
missing-required-argument error unchanged. -/
theorem optional2_missing_argument_propagates_witness :
    gRequired.call ([], ()) = Except.error (PyErr.typeError
        "foo missing 1 required positional argument: bar")
      ∧ (decoratedWrapper optional2Def gRequired).call (none, [], ())
        = Except.error (PyErr.typeError
            "foo missing 1 required positional argument: bar") :=
  ⟨rfl, (optional2_missing_argument_propagates gRequired [] ()
      (PyErr.typeError "foo missing 1 required positional argument: bar")
      rfl).2⟩

/-- Claim C9: every component that returns a wrapper copies the target's
identity metadata onto the result.  `decorated` on a target, `pipe` and
`compose` applied to a target, and `optional`/`optional2` applied to a
factory (their target) each produce a wrapper whose name and doc equal the
target's, via `update_wrapper`. -/
theorem metadata_copied_from_target :
    (∀ {A R B S : Type} (f : PyFun (PyFun A R × B) S) (t : PyFun A R),
        decorated f (some t) = Sum.inr (decoratedWrapper f t)
          ∧ (decoratedWrapper f t).name = t.name
          ∧ (decoratedWrapper f t).doc = t.doc)
      ∧ (∀ {A ρ : Type} (ds : List (ρ → Option ρ)) (t : PyFun A (Option ρ)),
          applyDecorator (pipe ds) (some t)
            = Sum.inr (decoratedWrapper (pipeLambda ds) t)
          ∧ (decoratedWrapper (pipeLambda ds) t).name = t.name
          ∧ (decoratedWrapper (pipeLambda ds) t).doc = t.doc)
      ∧ (∀ {A ρ : Type} (ds : List (ρ → Option ρ)) (t : PyFun A (Option ρ)),
          applyDecorator (compose ds) (some t)
            = Sum.inr (decoratedWrapper (pipeLambda ds.reverse) t)
          ∧ (decoratedWrapper (pipeLambda ds.reverse) t).name = t.name
          ∧ (decoratedWrapper (pipeLambda ds.reverse) t).doc = t.doc)
      ∧ (∀ {K τ ω : Type} (F : PyFun K (τ → ω)),
          applyDecorator optional (some F)
            = Sum.inr (decoratedWrapper optionalDef F)
          ∧ (decoratedWrapper (@optionalDef K τ ω) F).name = F.name
          ∧ (decoratedWrapper (@optionalDef K τ ω) F).doc = F.doc)
      ∧ (∀ {K : Type} (F : PyFun (List Val × K) (Except PyErr (Val → Val))),
          applyDecorator optional2 (some F)
            = Sum.inr (decoratedWrapper optional2Def F)
          ∧ (decoratedWrapper optional2Def F).name = F.name
          ∧ (decoratedWrapper optional2Def F).doc = F.doc) := by
  refine ⟨?_, ?_, ?_, ?_, ?_⟩ <;> · intros; exact ⟨rfl, rfl, rfl⟩

/-- Claim C10: passing `None` as the target is treated as no target
supplied.  `decorated(f)` already is `decorated(f, None)` (the parameter
defaults to `None`), and applying the pending decorator to `None` again
yields the pending decorator with the same observables — never a wrapped
callable, so `None` is never wrapped as a target. -/
theorem decorated_none_stays_pending {A R B S : Type}
    (f : PyFun (PyFun A R × B) S) :
    decorated f none = Sum.inl (update_wrapper f f)
      ∧ applyDecorator (decorated f none) none = decorated f none
      ∧ isWrapped (decorated (A := A) f none) = false :=
  ⟨rfl, rfl, rfl⟩

end Decorator
